import Mathlib

/-!
Verification of the MicroAir EasyTouch Home Assistant integration
(`custom_components/micro_air_easytouch`).

The development shallowly embeds the parts of the integration that the
checked properties concern:

* the adaptive per-device, per-operation delay tracker
  (`_get_operation_delay` / `_increase_operation_delay` /
  `_adjust_operation_delay` in
  `micro_air_easytouch/parser.py`), with Python floats modelled as exact
  rationals (all constants involved are dyadic except the `0.1` snap
  threshold, for which the comparison agrees with the float one on every
  reachable value);
* the status decoder `decrypt`, with the Python dict it builds modelled as
  an insertion-ordered association list of string keys;
* the climate entity's `fan_mode` property and the lookup tables from
  `micro_air_easytouch/const.py`;
* the session engine around `async_poll` / `authenticate`, with the BLE
  transport abstracted as an oracle of per-call outcomes and the
  `try`/`except`/`finally` control flow translated explicitly.

Historical copies of the parser under `custom_components/MicroAirEasyTouch`
are superseded revisions; the embedding follows the current
`micro_air_easytouch` sources.
-/

/-! ## Adaptive delay tracker

`MicroAirEasyTouchBluetoothDeviceData.__init__` creates
`self._device_delays = {}` (a dict of dicts, keyed by device address and
then by operation name) and `self._max_delay = 4.0`.  Each entry holds
`{'delay': float, 'failures': int}`.  `failures` starts at 0, is only ever
incremented by one or decremented with `max(0, failures - 1)`, so it stays
a natural number. -/

structure DelayEntry where
  delay : Rat
  failures : Nat
deriving DecidableEq, Repr

/-- The nested dict `self._device_delays`, as a partial map from
(address, operation) to its entry. -/
def DelayState : Type := String → String → Option DelayEntry

/-- The fresh `self._device_delays = {}` from `__init__`. -/
def empty_delays : DelayState := fun _ _ => none

/-- Writing `self._device_delays[address][operation] = entry`. -/
def update_delay (st : DelayState) (address operation : String) (e : DelayEntry) :
    DelayState :=
  fun a k => if a = address ∧ k = operation then some e else st a k

/-- `self._max_delay = 4.0` from `__init__`. -/
def max_delay : Rat := 4

/-- `_get_operation_delay`: `device_delays.get(operation, {}).get('delay', 0.0)`. -/
def get_operation_delay (st : DelayState) (address operation : String) : Rat :=
  match st address operation with
  | some e => e.delay
  | none => 0

/-- `_increase_operation_delay`: initialises the entry to
`{'delay': 0.0, 'failures': 0}` when missing, increments `failures`, sets
`delay = min(0.5 * (2 ** min(failures, 3)), self._max_delay)` and returns
the new delay together with the updated state. -/
def increase_operation_delay (st : DelayState) (address operation : String) :
    Rat × DelayState :=
  let current := (st address operation).getD ⟨0, 0⟩
  let failures := current.failures + 1
  let delay := min ((1/2 : Rat) * 2 ^ (min failures 3)) max_delay
  (delay, update_delay st address operation ⟨delay, failures⟩)

/-- The two sequential in-place updates `_adjust_operation_delay` performs on
an existing entry: when `failures > 0` set `failures = max(0, failures - 1)`
and `delay = max(0.0, delay * 0.75)`; afterwards, when `failures == 0` and
`delay < 0.1`, snap the delay to exactly `0.0`. -/
def adjust_entry (current : DelayEntry) : DelayEntry :=
  let current :=
    if 0 < current.failures then
      { delay := max 0 (current.delay * (3/4)), failures := current.failures - 1 }
    else current
  if current.failures = 0 ∧ current.delay < 1/10 then
    { delay := 0, failures := current.failures }
  else current

/-- `_adjust_operation_delay`: only acts when the entry exists (it checks
`address in self._device_delays and operation in ...`), then applies
`adjust_entry` to it in place. -/
def adjust_operation_delay (st : DelayState) (address operation : String) :
    DelayState :=
  match st address operation with
  | none => st
  | some current => update_delay st address operation (adjust_entry current)

/-- One bookkeeping call on the tracker: `_increase_operation_delay` after a
failed operation, `_adjust_operation_delay` after a successful one. -/
inductive DelayEvent
  | failure (address operation : String)
  | success (address operation : String)
deriving DecidableEq, Repr

def apply_delay_event (st : DelayState) : DelayEvent → DelayState
  | .failure a k => (increase_operation_delay st a k).2
  | .success a k => adjust_operation_delay st a k

/-- The tracker state after an interleaved sequence of failure/success
calls on a freshly constructed device-data object. -/
def run_delay_events (es : List DelayEvent) : DelayState :=
  es.foldl apply_delay_event empty_delays

/-- State of one (address, operation) bucket after `n` consecutive
`_increase_operation_delay` calls on a fresh tracker. -/
def iter_fail (address operation : String) : Nat → DelayState
  | 0 => empty_delays
  | n + 1 => (increase_operation_delay (iter_fail address operation n) address operation).2

/-- Delay returned by the (n+1)-th consecutive `_increase_operation_delay`
call on a fresh (address, operation) bucket. -/
def fail_delay (address operation : String) (n : Nat) : Rat :=
  (increase_operation_delay (iter_fail address operation n) address operation).1

theorem update_delay_self (st : DelayState) (a k : String) (e : DelayEntry) :
    update_delay st a k e a k = some e := by
  simp [update_delay]

theorem update_delay_other (st : DelayState) (a k a' k' : String) (e : DelayEntry)
    (h : ¬(a' = a ∧ k' = k)) : update_delay st a k e a' k' = st a' k' := by
  simp [update_delay, h]

theorem iter_fail_lookup (a k : String) : ∀ n : Nat,
    iter_fail a k n a k =
      if n = 0 then none
      else some ⟨min ((1/2 : Rat) * 2 ^ (min n 3)) max_delay, n⟩ := by
  intro n
  induction n with
  | zero => rfl
  | succ m ih =>
    have hstep : iter_fail a k (m + 1) a k
        = some ⟨min ((1/2 : Rat)
              * 2 ^ (min (((iter_fail a k m a k).getD ⟨0, 0⟩).failures + 1) 3)) max_delay,
            ((iter_fail a k m a k).getD ⟨0, 0⟩).failures + 1⟩ :=
      update_delay_self _ _ _ _
    rw [hstep, ih]
    cases m <;> simp

theorem half_pow_min_le (n : Nat) : (1/2 : Rat) * 2 ^ (min n 3) ≤ 4 := by
  have h1 : (2 : Rat) ^ (min n 3) ≤ 2 ^ 3 :=
    pow_le_pow_right₀ (by norm_num) (Nat.min_le_right n 3)
  nlinarith [h1]

/-- C3: for every device address, operation kind and failure count `f = n + 1`
reached by repeated `_increase_operation_delay` calls on a fresh
(address, kind) pair, the returned delay equals
`min(0.5 * 2^min(f, 3), 6.0)` (the spec's stated maximum; the code's own
cap `max_delay = 4.0` produces the identical value because the exponent
ceiling of 3 binds first), giving the sequence 1.0, 2.0, 4.0, 4.0, ... and
never exceeding 6.0. -/
theorem increase_delay_formula (address operation : String) (n : Nat) :
    fail_delay address operation n
        = min ((1/2 : Rat) * 2 ^ (min (n + 1) 3)) 6
      ∧ fail_delay address operation n
        = min ((1/2 : Rat) * 2 ^ (min (n + 1) 3)) max_delay
      ∧ fail_delay address operation n ≤ 6 := by
  have hval : fail_delay address operation n
      = min ((1/2 : Rat) * 2 ^ (min (n + 1) 3)) max_delay := by
    unfold fail_delay increase_operation_delay
    rw [iter_fail_lookup]
    cases n with
    | zero => simp
    | succ m => simp
  have hle : (1/2 : Rat) * 2 ^ (min (n + 1) 3) ≤ 4 := half_pow_min_le (n + 1)
  have h4 : min ((1/2 : Rat) * 2 ^ (min (n + 1) 3)) max_delay
      = (1/2 : Rat) * 2 ^ (min (n + 1) 3) :=
    min_eq_left (by simpa [max_delay] using hle)
  have h6 : min ((1/2 : Rat) * 2 ^ (min (n + 1) 3)) 6
      = (1/2 : Rat) * 2 ^ (min (n + 1) 3) :=
    min_eq_left (by linarith)
  exact ⟨by rw [hval, h4, h6], hval, by rw [hval, h4]; linarith⟩

/-- C4: on a recorded (address, operation) entry with `failures > 0` and a
nonnegative delay, one `_adjust_operation_delay` call decrements `failures`
by exactly one and multiplies the delay by 0.75, except that when the
failures reach 0 with the new delay below 0.1 the delay snaps to exactly 0. -/
theorem adjust_delay_step (st : DelayState) (address operation : String)
    (d : Rat) (f : Nat)
    (he : st address operation = some ⟨d, f⟩) (hf : 0 < f) (hd : 0 ≤ d) :
    adjust_operation_delay st address operation address operation =
      some ⟨if f - 1 = 0 ∧ d * (3/4) < 1/10 then 0 else d * (3/4), f - 1⟩ := by
  have hmax : max (0 : Rat) (d * (3/4)) = d * (3/4) :=
    max_eq_right (by nlinarith)
  have hentry : adjust_entry ⟨d, f⟩ =
      ⟨if f - 1 = 0 ∧ d * (3/4) < 1/10 then 0 else d * (3/4), f - 1⟩ := by
    unfold adjust_entry
    dsimp only
    rw [if_pos hf]
    dsimp only
    rw [hmax]
    split_ifs <;> rfl
  unfold adjust_operation_delay
  rw [he]
  dsimp only
  rw [update_delay_self, hentry]

/-- Concrete backoff-decay scenario from the spec: failures=3, delay=4.0;
a single success yields failures=2, delay=3.0 (no instant reset). -/
theorem adjust_delay_step_witness :
    adjust_operation_delay
        (update_delay empty_delays "00:11:22" "read" ⟨4, 3⟩) "00:11:22" "read"
        "00:11:22" "read" = some ⟨3, 2⟩ := by
  have h := adjust_delay_step
    (update_delay empty_delays "00:11:22" "read" ⟨4, 3⟩) "00:11:22" "read" 4 3
    (update_delay_self _ _ _ _) (by decide) (by norm_num)
  rw [h]
  norm_num

def delay_in_bounds (st : DelayState) : Prop :=
  ∀ a k e, st a k = some e → 0 ≤ e.delay ∧ e.delay ≤ max_delay

theorem delay_in_bounds_empty : delay_in_bounds empty_delays := by
  intro a k e h
  simp [empty_delays] at h

theorem delay_in_bounds_increase (st : DelayState) (address operation : String)
    (h : delay_in_bounds st) :
    delay_in_bounds (increase_operation_delay st address operation).2 := by
  intro a k e hl
  by_cases hk : a = address ∧ k = operation
  · obtain ⟨rfl, rfl⟩ := hk
    simp only [increase_operation_delay, update_delay_self] at hl
    cases hl
    constructor
    · have : (0 : Rat) ≤ (1/2 : Rat) * 2 ^ (min ((st a k).getD ⟨0, 0⟩).failures.succ 3) := by
        positivity
      simp only []
      exact le_min this (by norm_num [max_delay])
    · exact min_le_right _ _
  · rw [show (increase_operation_delay st address operation).2 a k = st a k from
      update_delay_other st address operation a k _ hk] at hl
    exact h a k e hl

theorem adjust_entry_bounds (c : DelayEntry)
    (h1 : 0 ≤ c.delay) (h2 : c.delay ≤ max_delay) :
    0 ≤ (adjust_entry c).delay ∧ (adjust_entry c).delay ≤ max_delay := by
  have hmul : c.delay * (3/4) ≤ max_delay := by
    rw [max_delay] at h2 ⊢
    nlinarith
  unfold adjust_entry
  dsimp only
  by_cases hfp : 0 < c.failures
  · rw [if_pos hfp]
    dsimp only
    split_ifs
    · exact ⟨le_refl 0, by norm_num [max_delay]⟩
    · exact ⟨le_max_left 0 _, max_le (by norm_num [max_delay]) hmul⟩
  · rw [if_neg hfp]
    split_ifs
    · exact ⟨le_refl 0, by norm_num [max_delay]⟩
    · exact ⟨h1, h2⟩

theorem delay_in_bounds_adjust (st : DelayState) (address operation : String)
    (h : delay_in_bounds st) :
    delay_in_bounds (adjust_operation_delay st address operation) := by
  intro a k e hl
  unfold adjust_operation_delay at hl
  cases hcur : st address operation with
  | none => rw [hcur] at hl; exact h a k e hl
  | some current =>
    rw [hcur] at hl
    dsimp only at hl
    by_cases hk : a = address ∧ k = operation
    · obtain ⟨rfl, rfl⟩ := hk
      rw [update_delay_self] at hl
      obtain rfl := Option.some.inj hl
      exact adjust_entry_bounds current (h a k current hcur).1 (h a k current hcur).2
    · rw [update_delay_other _ _ _ _ _ _ hk] at hl
      exact h a k e hl

theorem delay_in_bounds_run_aux (es : List DelayEvent) :
    ∀ st : DelayState, delay_in_bounds st →
      delay_in_bounds (es.foldl apply_delay_event st) := by
  induction es with
  | nil => intro st h; exact h
  | cons e rest ih =>
    intro st h
    refine ih _ ?_
    cases e with
    | failure a k => exact delay_in_bounds_increase st a k h
    | success a k => exact delay_in_bounds_adjust st a k h

theorem untouched_lookup_none (es : List DelayEvent) :
    ∀ st : DelayState, ∀ a k : String,
      DelayEvent.failure a k ∉ es → st a k = none →
      (es.foldl apply_delay_event st) a k = none := by
  induction es with
  | nil => intro st a k _ h0; exact h0
  | cons e rest ih =>
    intro st a k hn h0
    have hn' : DelayEvent.failure a k ∉ rest := fun hm => hn (List.mem_cons_of_mem e hm)
    refine ih _ a k hn' ?_
    cases e with
    | failure a' k' =>
      have hne : ¬(a = a' ∧ k = k') := by
        rintro ⟨rfl, rfl⟩
        exact hn (List.mem_cons_self _ _)
      simpa [apply_delay_event, increase_operation_delay]
        using (update_delay_other st a' k' a k _ hne).trans h0
    | success a' k' =>
      show adjust_operation_delay st a' k' a k = none
      unfold adjust_operation_delay
      cases hcur : st a' k' with
      | none => exact h0
      | some current =>
        dsimp only
        have hne : ¬(a = a' ∧ k = k') := by
          rintro ⟨rfl, rfl⟩
          rw [h0] at hcur
          exact Option.noConfusion hcur
        exact (update_delay_other st a' k' a k _ hne).trans h0

/-- C10 (implicit invariant): across any interleaved sequence of
failure/success bookkeeping calls on a fresh tracker, the stored delay of
every (address, operation) bucket stays within [0, 4.0]; the cap constant
`_max_delay` is 4.0, strictly below the spec's 6.0, and the exponent
ceiling of 3 (0.5 * 2^3 = 4.0) already meets it, so the cap never binds;
and a bucket that never saw a failure call always reads a delay of
exactly 0. -/
theorem delay_tracker_invariant (es : List DelayEvent) (address operation : String) :
    (0 ≤ get_operation_delay (run_delay_events es) address operation
      ∧ get_operation_delay (run_delay_events es) address operation ≤ max_delay)
    ∧ max_delay = 4 ∧ max_delay < 6
    ∧ (∀ f : Nat, (1/2 : Rat) * 2 ^ (min f 3) ≤ max_delay)
    ∧ (DelayEvent.failure address operation ∉ es →
        get_operation_delay (run_delay_events es) address operation = 0) := by
  have hinv : delay_in_bounds (run_delay_events es) :=
    delay_in_bounds_run_aux es empty_delays delay_in_bounds_empty
  refine ⟨?_, rfl, by norm_num [max_delay], ?_, ?_⟩
  · unfold get_operation_delay
    cases hl : run_delay_events es address operation with
    | none => norm_num [max_delay]
    | some e => exact hinv address operation e hl
  · intro f
    simpa [max_delay] using half_pow_min_le f
  · intro hnf
    have hz : run_delay_events es address operation = none :=
      untouched_lookup_none es empty_delays address operation hnf rfl
    unfold get_operation_delay
    rw [hz]

/-- Concrete run for the invariant: after a failure on one bucket and a
success on another, the failed bucket's delay is within [0, 4] and the
never-failed bucket still reads exactly 0. -/
theorem delay_tracker_invariant_witness :
    (0 ≤ get_operation_delay
        (run_delay_events [.failure "aa" "read", .success "bb" "read"]) "aa" "read"
      ∧ get_operation_delay
        (run_delay_events [.failure "aa" "read", .success "bb" "read"]) "aa" "read"
          ≤ max_delay)
    ∧ get_operation_delay
        (run_delay_events [.failure "aa" "read", .success "bb" "read"]) "bb" "read" = 0 :=
  ⟨(delay_tracker_invariant [.failure "aa" "read", .success "bb" "read"] "aa" "read").1,
    (delay_tracker_invariant [.failure "aa" "read", .success "bb" "read"] "bb" "read").2.2.2.2
      (by decide)⟩

/-! ## Status codec

`decrypt` in `micro_air_easytouch/parser.py` parses the JSON status payload
and builds the `hr_status` dict.  The parsed JSON structure is embedded as
`StatusJson` (serial number `SN`, the zone-0 array `Z_sts['0']`, and the
parameter-index collection `PRM`); the Python dict `hr_status` is embedded
as an insertion-ordered association list from string keys to `JVal` values,
looked up first-match (keys are unique, matching dict semantics). -/

structure StatusJson where
  sn : String
  zsts0 : List Int
  prm : List Int
deriving DecidableEq, Repr

/-- A value stored in the `hr_status` dict: the numeric array entries, the
`off`/`on` boolean flags, the derived mode strings, or the raw parsed
payload stored under `'ALL'`. -/
inductive JVal
  | num (n : Int)
  | bool (b : Bool)
  | str (s : String)
  | obj (s : StatusJson)
deriving DecidableEq, Repr

/-- Python dict lookup (`d[k]` / `d.get(k)`) on an association list. -/
def dictGet {α β : Type} [DecidableEq α] : List (α × β) → α → Option β
  | [], _ => none
  | (k, v) :: rest, key => if k = key then some v else dictGet rest key

/-- A conditional dict entry: `if cond: hr_status[k] = v`. -/
def entryIf (p : Prop) [Decidable p] (k : String) (v : JVal) : List (String × JVal) :=
  if p then [(k, v)] else []

/-- A dict entry guarded by a table lookup:
`if code in table: hr_status[k] = table[code]`. -/
def entryOpt (k : String) (v : Option JVal) : List (String × JVal) :=
  match v with
  | some x => [(k, x)]
  | none => []

/-- The `modes` dict of `decrypt`:
`{0:"off",5:"heat_on",4:"heat",3:"cool_on",2:"cool",1:"fan",11:"auto"}`. -/
def modes : List (Int × String) :=
  [(0, "off"), (5, "heat_on"), (4, "heat"), (3, "cool_on"), (2, "cool"),
   (1, "fan"), (11, "auto")]

/-- The `fan_modes` dict of `decrypt`:
`{0:"off",1:"manualL",2:"manualH",65:"cycledL",66:"cycledH",128:"full auto"}`. -/
def fan_modes : List (Int × String) :=
  [(0, "off"), (1, "manualL"), (2, "manualH"), (65, "cycledL"),
   (66, "cycledH"), (128, "full auto")]

/-- `decrypt`: reads `Z_sts['0'][0] .. [15]` (an array with fewer than 16
entries raises `IndexError`, modelled as `none`), builds the `hr_status`
dict in source order, sets `off`/`on` from membership of `7` / `15` in
`PRM`, and adds the derived mode strings only when the corresponding code
is a key of the `modes` / `fan_modes` tables. -/
def decrypt (s : StatusJson) : Option (List (String × JVal)) :=
  match s.zsts0 with
  | a0 :: a1 :: a2 :: a3 :: a4 :: a5 :: a6 :: a7 :: a8 :: a9 :: a10 :: a11
      :: a12 :: a13 :: a14 :: a15 :: _ =>
    some (
      [("SN", .str s.sn),
       ("autoHeat_sp", .num a0),
       ("autoCool_sp", .num a1),
       ("cool_sp", .num a2),
       ("heat_sp", .num a3),
       ("dry_sp", .num a4),
       ("u5", .num a5),
       ("fan_mode_num", .num a6),
       ("cool_mode_num", .num a7),
       ("u8", .num a8),
       ("u9", .num a9),
       ("mode_num", .num a10),
       ("heat_mode_num", .num a11),
       ("facePlateTemperature", .num a12),
       ("u13", .num a13),
       ("u14", .num a14),
       ("current_mode_num", .num a15),
       ("ALL", .obj s)]
      ++ entryIf ((7 : Int) ∈ s.prm) "off" (.bool true)
      ++ entryIf ((15 : Int) ∈ s.prm) "on" (.bool true)
      ++ entryOpt "current_mode" ((dictGet modes a15).map JVal.str)
      ++ entryOpt "mode" ((dictGet modes a10).map JVal.str)
      ++ entryOpt "fan_mode" ((dictGet fan_modes a6).map JVal.str)
      ++ entryOpt "cool_mode" ((dictGet fan_modes a7).map JVal.str)
      ++ entryOpt "heat_mode" ((dictGet fan_modes a11).map JVal.str))
  | _ => none

@[simp] theorem dictGet_nil {α β : Type} [DecidableEq α] (key : α) :
    dictGet ([] : List (α × β)) key = none := rfl

@[simp] theorem dictGet_cons {α β : Type} [DecidableEq α] (k : α) (v : β)
    (l : List (α × β)) (key : α) :
    dictGet ((k, v) :: l) key = if k = key then some v else dictGet l key := rfl

@[simp] theorem dictGet_entryIf_append (p : Prop) [Decidable p] (k : String)
    (v : JVal) (l : List (String × JVal)) (key : String) :
    dictGet (entryIf p k v ++ l) key =
      if p ∧ k = key then some v else dictGet l key := by
  by_cases hp : p <;> by_cases hk : k = key <;> simp [entryIf, hp, hk]

@[simp] theorem dictGet_entryOpt_append_ne (k : String) (v : Option JVal)
    (l : List (String × JVal)) (key : String) (h : ¬ k = key) :
    dictGet (entryOpt k v ++ l) key = dictGet l key := by
  cases v <;> simp [entryOpt, h]

@[simp] theorem dictGet_entryOpt_append_self (k : String) (v : Option JVal)
    (l : List (String × JVal)) (h : dictGet l k = none) :
    dictGet (entryOpt k v ++ l) k = v := by
  cases v <;> simp [entryOpt, h]

/-! ## Climate entity (climate.py) lookup tables and fan_mode property

`const.py` defines the mode and fan tables; `climate.py` derives its
`hvac_mode` and `fan_mode` properties from the dict produced by `decrypt`
(stored as `self._state`). -/

/-- The Home Assistant `HVACMode` values used by `const.py`. -/
inductive HVACMode
  | off
  | heat
  | cool
  | auto
  | dry
  | fan_only
deriving DecidableEq, Repr

/-- `HA_MODE_TO_EASY_MODE` from `const.py`. -/
def HA_MODE_TO_EASY_MODE : List (HVACMode × Int) :=
  [(.off, 0), (.fan_only, 1), (.cool, 2), (.heat, 4), (.dry, 6), (.auto, 11)]

/-- `EASY_MODE_TO_HA_MODE = {v: k for k, v in HA_MODE_TO_EASY_MODE.items()}`. -/
def EASY_MODE_TO_HA_MODE : List (Int × HVACMode) :=
  HA_MODE_TO_EASY_MODE.map (fun p => (p.2, p.1))

/-- `FAN_MODES_FULL` from `const.py` (device fan-mode name to code). -/
def FAN_MODES_FULL : List (String × Int) :=
  [("off", 0), ("manualL", 1), ("manualH", 2), ("cycledL", 65),
   ("cycledH", 66), ("full auto", 128)]

/-- `FAN_MODES_FAN_ONLY` from `const.py` (name to code; note the direction). -/
def FAN_MODES_FAN_ONLY : List (String × Int) :=
  [("off", 0), ("low", 1), ("high", 2)]

/-- `FAN_MODES_REVERSE = {v: k for k, v in FAN_MODES_FULL.items()}`. -/
def FAN_MODES_REVERSE : List (Int × String) :=
  FAN_MODES_FULL.map (fun p => (p.2, p.1))

/-- `_FAN_MODE_MAP` from `climate.py` (device fan-mode name to the standard
Home Assistant name). -/
def FAN_MODE_MAP : List (String × String) :=
  [("off", "off"), ("low", "low"), ("manualL", "low"), ("cycledL", "low"),
   ("high", "high"), ("manualH", "high"), ("cycledH", "high"),
   ("full auto", "auto")]

/-- `self._state.get(key, default)` for the integer-valued state entries
(all keys consulted this way hold numbers in every decoder output). -/
def stateGetInt (st : List (String × JVal)) (k : String) (d : Int) : Int :=
  match dictGet st k with
  | some (.num n) => n
  | _ => d

/-- `MicroAirEasyTouchClimate.hvac_mode`:
`EASY_MODE_TO_HA_MODE.get(self._state.get("mode_num", 0), HVACMode.OFF)`. -/
def climate_hvac_mode (st : List (String × JVal)) : HVACMode :=
  (dictGet EASY_MODE_TO_HA_MODE (stateGetInt st "mode_num" 0)).getD .off

/-- `MicroAirEasyTouchClimate.fan_mode`.  In the `FAN_ONLY` branch the
source does `FAN_MODES_FAN_ONLY.get(fan_mode_num, "off")`: that dict maps
names to codes, so looking it up with the integer code never matches a key
and the branch always produces the default `"off"`; the translation folds
that constant in.  The other branches use `FAN_MODES_REVERSE` on keys
`cool_fan_mode_num` / `heat_fan_mode_num` / `auto_fan_mode_num` with
default code 128, and the result is mapped through `_FAN_MODE_MAP` with
default `"auto"`. -/
def climate_fan_mode (st : List (String × JVal)) : String :=
  let mode : String :=
    match climate_hvac_mode st with
    | .fan_only => "off"
    | .cool =>
      (dictGet FAN_MODES_REVERSE (stateGetInt st "cool_fan_mode_num" 128)).getD "full auto"
    | .heat =>
      (dictGet FAN_MODES_REVERSE (stateGetInt st "heat_fan_mode_num" 128)).getD "full auto"
    | .auto =>
      (dictGet FAN_MODES_REVERSE (stateGetInt st "auto_fan_mode_num" 128)).getD "full auto"
    | _ => "full auto"
  (dictGet FAN_MODE_MAP mode).getD "auto"

@[simp] theorem dictGet_entryOpt_ne (k : String) (v : Option JVal) (key : String)
    (h : ¬ k = key) : dictGet (entryOpt k v) key = none := by
  cases v <;> simp [entryOpt, h]

@[simp] theorem dictGet_entryOpt_self (k : String) (v : Option JVal) :
    dictGet (entryOpt k v) k = v := by
  cases v <;> simp [entryOpt]

/-- Evaluation of `decrypt` on any zone array with at least 16 entries. -/
theorem decrypt_eq (s : StatusJson)
    (a0 a1 a2 a3 a4 a5 a6 a7 a8 a9 a10 a11 a12 a13 a14 a15 : Int)
    (rest : List Int)
    (h : s.zsts0 = a0 :: a1 :: a2 :: a3 :: a4 :: a5 :: a6 :: a7 :: a8 :: a9
        :: a10 :: a11 :: a12 :: a13 :: a14 :: a15 :: rest) :
    decrypt s = some (
      [("SN", .str s.sn),
       ("autoHeat_sp", .num a0),
       ("autoCool_sp", .num a1),
       ("cool_sp", .num a2),
       ("heat_sp", .num a3),
       ("dry_sp", .num a4),
       ("u5", .num a5),
       ("fan_mode_num", .num a6),
       ("cool_mode_num", .num a7),
       ("u8", .num a8),
       ("u9", .num a9),
       ("mode_num", .num a10),
       ("heat_mode_num", .num a11),
       ("facePlateTemperature", .num a12),
       ("u13", .num a13),
       ("u14", .num a14),
       ("current_mode_num", .num a15),
       ("ALL", .obj s)]
      ++ entryIf ((7 : Int) ∈ s.prm) "off" (.bool true)
      ++ entryIf ((15 : Int) ∈ s.prm) "on" (.bool true)
      ++ entryOpt "current_mode" ((dictGet modes a15).map JVal.str)
      ++ entryOpt "mode" ((dictGet modes a10).map JVal.str)
      ++ entryOpt "fan_mode" ((dictGet fan_modes a6).map JVal.str)
      ++ entryOpt "cool_mode" ((dictGet fan_modes a7).map JVal.str)
      ++ entryOpt "heat_mode" ((dictGet fan_modes a11).map JVal.str)) := by
  unfold decrypt
  rw [h]

/-- C1 (amended): for every status payload whose `Z_sts` zone-0 array has at
least 16 numeric entries, `decrypt` maps index 0 to `autoHeat_sp`, 1 to
`autoCool_sp`, 2 to `cool_sp`, 3 to `heat_sp`, 4 to `dry_sp`, 6 to the
fan-only fan-mode code `fan_mode_num`, 7 to the cool-branch fan-mode code
`cool_mode_num`, 10 to `mode_num`, 11 to the heat-branch fan-mode code
`heat_mode_num`, 12 to `facePlateTemperature`, 15 to `current_mode_num`,
and preserves indices 5, 8, 13, 14 — and also index 9 — as the raw
pass-through values `u5`, `u8`, `u13`, `u14`, `u9`; no auto-branch
fan-mode code (`auto_fan_mode_num`) is produced by the decoder. -/
theorem decode_fixed_mapping (s : StatusJson)
    (a0 a1 a2 a3 a4 a5 a6 a7 a8 a9 a10 a11 a12 a13 a14 a15 : Int)
    (rest : List Int)
    (h : s.zsts0 = a0 :: a1 :: a2 :: a3 :: a4 :: a5 :: a6 :: a7 :: a8 :: a9
        :: a10 :: a11 :: a12 :: a13 :: a14 :: a15 :: rest) :
    (decrypt s).isSome = true
    ∧ dictGet ((decrypt s).getD []) "autoHeat_sp" = some (.num a0)
    ∧ dictGet ((decrypt s).getD []) "autoCool_sp" = some (.num a1)
    ∧ dictGet ((decrypt s).getD []) "cool_sp" = some (.num a2)
    ∧ dictGet ((decrypt s).getD []) "heat_sp" = some (.num a3)
    ∧ dictGet ((decrypt s).getD []) "dry_sp" = some (.num a4)
    ∧ dictGet ((decrypt s).getD []) "fan_mode_num" = some (.num a6)
    ∧ dictGet ((decrypt s).getD []) "cool_mode_num" = some (.num a7)
    ∧ dictGet ((decrypt s).getD []) "mode_num" = some (.num a10)
    ∧ dictGet ((decrypt s).getD []) "heat_mode_num" = some (.num a11)
    ∧ dictGet ((decrypt s).getD []) "facePlateTemperature" = some (.num a12)
    ∧ dictGet ((decrypt s).getD []) "current_mode_num" = some (.num a15)
    ∧ dictGet ((decrypt s).getD []) "u5" = some (.num a5)
    ∧ dictGet ((decrypt s).getD []) "u8" = some (.num a8)
    ∧ dictGet ((decrypt s).getD []) "u9" = some (.num a9)
    ∧ dictGet ((decrypt s).getD []) "u13" = some (.num a13)
    ∧ dictGet ((decrypt s).getD []) "u14" = some (.num a14)
    ∧ dictGet ((decrypt s).getD []) "auto_fan_mode_num" = none := by
  rw [decrypt_eq s a0 a1 a2 a3 a4 a5 a6 a7 a8 a9 a10 a11 a12 a13 a14 a15 rest h]
  refine ⟨rfl, ?_, ?_, ?_, ?_, ?_, ?_, ?_, ?_, ?_, ?_, ?_, ?_, ?_, ?_, ?_, ?_, ?_⟩
    <;> simp

/-- C1 counterexample: decoding a payload whose zone array is
`[0,1,...,15]` (so the entry at index 9 is `9`) produces exactly the 18
base entries — index 9 is stored under the raw pass-through key `"u9"`,
and no auto-branch fan-mode field (`auto_fan_mode_num`, the key the
climate entity reads) exists anywhere in the output, refuting the claimed
mapping of index 9 to an auto-branch fan-mode code. -/
theorem decode_index9_counterexample :
    decrypt ⟨"SN-X", [0, 1, 2, 3, 4, 5, 6, 7, 8, 9, 10, 11, 12, 13, 14, 15], []⟩
      = some
        [("SN", .str "SN-X"), ("autoHeat_sp", .num 0), ("autoCool_sp", .num 1),
         ("cool_sp", .num 2), ("heat_sp", .num 3), ("dry_sp", .num 4),
         ("u5", .num 5), ("fan_mode_num", .num 6), ("cool_mode_num", .num 7),
         ("u8", .num 8), ("u9", .num 9), ("mode_num", .num 10),
         ("heat_mode_num", .num 11), ("facePlateTemperature", .num 12),
         ("u13", .num 13), ("u14", .num 14), ("current_mode_num", .num 15),
         ("ALL", .obj ⟨"SN-X", [0, 1, 2, 3, 4, 5, 6, 7, 8, 9, 10, 11, 12, 13, 14, 15], []⟩)]
    ∧ dictGet ((decrypt ⟨"SN-X", [0, 1, 2, 3, 4, 5, 6, 7, 8, 9, 10, 11, 12, 13, 14, 15], []⟩).getD [])
        "auto_fan_mode_num" = none := by
  constructor
  · rfl
  · rfl

/-- Concrete decode of the spec's example payload, instantiating the
amended fixed-mapping theorem: `cool_sp = 72`,
`facePlateTemperature = 73`, index 9 lands in `u9`, and there is no
`auto_fan_mode_num` field. -/
theorem decode_fixed_mapping_witness :
    dictGet ((decrypt ⟨"S5", [60, 75, 72, 68, 65, 0, 1, 0, 0, 0, 2, 0, 73, 0, 0, 3], []⟩).getD [])
        "cool_sp" = some (.num 72)
    ∧ dictGet ((decrypt ⟨"S5", [60, 75, 72, 68, 65, 0, 1, 0, 0, 0, 2, 0, 73, 0, 0, 3], []⟩).getD [])
        "facePlateTemperature" = some (.num 73)
    ∧ dictGet ((decrypt ⟨"S5", [60, 75, 72, 68, 65, 0, 1, 0, 0, 0, 2, 0, 73, 0, 0, 3], []⟩).getD [])
        "u9" = some (.num 0)
    ∧ dictGet ((decrypt ⟨"S5", [60, 75, 72, 68, 65, 0, 1, 0, 0, 0, 2, 0, 73, 0, 0, 3], []⟩).getD [])
        "auto_fan_mode_num" = none := by
  obtain ⟨-, -, -, h3, -, -, -, -, -, -, h10, -, -, -, h14, -, -, h17⟩ :=
    decode_fixed_mapping ⟨"S5", [60, 75, 72, 68, 65, 0, 1, 0, 0, 0, 2, 0, 73, 0, 0, 3], []⟩
      60 75 72 68 65 0 1 0 0 0 2 0 73 0 0 3 [] rfl
  exact ⟨h3, h10, h14, h17⟩

/-- C2 (amended): the decoder computes its fan-mode strings
unconditionally, with no dependence on the decoded `mode` string: index 6
feeds `fan_mode`, index 7 feeds `cool_mode` and index 11 feeds
`heat_mode`, all through the single full 6-value `fan_modes` table (there
is no separate 3-value table in the decoder, and index 9 feeds no fan
field); the decoder emits none of the `cool_fan_mode_num` /
`heat_fan_mode_num` / `auto_fan_mode_num` keys that the climate entity's
mode-dependent `fan_mode` property reads, so for a status decoded with
`mode_num = 2` (cool) the climate property falls back to the default code
128 and reports `"auto"` regardless of the index-7 value. -/
theorem decode_fan_fields (s : StatusJson)
    (a0 a1 a2 a3 a4 a5 a6 a7 a8 a9 a10 a11 a12 a13 a14 a15 : Int)
    (rest : List Int)
    (h : s.zsts0 = a0 :: a1 :: a2 :: a3 :: a4 :: a5 :: a6 :: a7 :: a8 :: a9
        :: a10 :: a11 :: a12 :: a13 :: a14 :: a15 :: rest) :
    dictGet ((decrypt s).getD []) "fan_mode" = (dictGet fan_modes a6).map JVal.str
    ∧ dictGet ((decrypt s).getD []) "cool_mode" = (dictGet fan_modes a7).map JVal.str
    ∧ dictGet ((decrypt s).getD []) "heat_mode" = (dictGet fan_modes a11).map JVal.str
    ∧ dictGet ((decrypt s).getD []) "cool_fan_mode_num" = none
    ∧ dictGet ((decrypt s).getD []) "heat_fan_mode_num" = none
    ∧ dictGet ((decrypt s).getD []) "auto_fan_mode_num" = none
    ∧ (a10 = 2 → climate_fan_mode ((decrypt s).getD []) = "auto") := by
  rw [decrypt_eq s a0 a1 a2 a3 a4 a5 a6 a7 a8 a9 a10 a11 a12 a13 a14 a15 rest h]
  have hmn : dictGet (((some (
      [("SN", JVal.str s.sn), ("autoHeat_sp", .num a0), ("autoCool_sp", .num a1),
       ("cool_sp", .num a2), ("heat_sp", .num a3), ("dry_sp", .num a4),
       ("u5", .num a5), ("fan_mode_num", .num a6), ("cool_mode_num", .num a7),
       ("u8", .num a8), ("u9", .num a9), ("mode_num", .num a10),
       ("heat_mode_num", .num a11), ("facePlateTemperature", .num a12),
       ("u13", .num a13), ("u14", .num a14), ("current_mode_num", .num a15),
       ("ALL", .obj s)]
      ++ entryIf ((7 : Int) ∈ s.prm) "off" (.bool true)
      ++ entryIf ((15 : Int) ∈ s.prm) "on" (.bool true)
      ++ entryOpt "current_mode" ((dictGet modes a15).map JVal.str)
      ++ entryOpt "mode" ((dictGet modes a10).map JVal.str)
      ++ entryOpt "fan_mode" ((dictGet fan_modes a6).map JVal.str)
      ++ entryOpt "cool_mode" ((dictGet fan_modes a7).map JVal.str)
      ++ entryOpt "heat_mode" ((dictGet fan_modes a11).map JVal.str))
      : Option (List (String × JVal)))).getD []) "mode_num" = some (.num a10) := by
    simp
  refine ⟨by simp, by simp, by simp, by simp, by simp, by simp, ?_⟩
  intro ha
  subst ha
  simp only [Option.getD_some] at hmn ⊢
  simp [climate_fan_mode, climate_hvac_mode, stateGetInt, hmn,
    EASY_MODE_TO_HA_MODE, HA_MODE_TO_EASY_MODE, FAN_MODES_REVERSE,
    FAN_MODES_FULL, FAN_MODE_MAP]

/-- C2 counterexample: a payload with `mode_num = 0` decodes to
`mode = "off"`, yet the decoder still populates `fan_mode` (from index 6
through the full table, giving `"manualL"`), refuting both the claimed
mode-dependence of the fan-mode computation and the claimed suppression
when the mode is off; and the spec's example payload produces no
`cool_fan_mode` field at all. -/
theorem fan_mode_unconditional_counterexample :
    dictGet ((decrypt ⟨"S2", [0, 0, 0, 0, 0, 0, 1, 0, 0, 0, 0, 0, 0, 0, 0, 0], []⟩).getD [])
        "mode" = some (.str "off")
    ∧ dictGet ((decrypt ⟨"S2", [0, 0, 0, 0, 0, 0, 1, 0, 0, 0, 0, 0, 0, 0, 0, 0], []⟩).getD [])
        "fan_mode" = some (.str "manualL")
    ∧ dictGet ((decrypt ⟨"S3", [60, 75, 72, 68, 65, 0, 1, 0, 0, 0, 2, 0, 73, 0, 0, 3], []⟩).getD [])
        "cool_fan_mode" = none := by
  exact ⟨rfl, rfl, rfl⟩

/-- Concrete run of the amended fan-field theorem on the spec's example
payload: the cool-branch fan-mode string lands under key `cool_mode` with
value `"off"` (index 7 = 0 under the full table), and the climate entity
reports `"auto"` for the same status. -/
theorem decode_fan_fields_witness :
    dictGet ((decrypt ⟨"S4", [60, 75, 72, 68, 65, 0, 1, 0, 0, 0, 2, 0, 73, 0, 0, 3], []⟩).getD [])
        "cool_mode" = some (.str "off")
    ∧ climate_fan_mode
        ((decrypt ⟨"S4", [60, 75, 72, 68, 65, 0, 1, 0, 0, 0, 2, 0, 73, 0, 0, 3], []⟩).getD [])
      = "auto" := by
  obtain ⟨-, h2, -, -, -, -, h7⟩ :=
    decode_fan_fields ⟨"S4", [60, 75, 72, 68, 65, 0, 1, 0, 0, 0, 2, 0, 73, 0, 0, 3], []⟩
      60 75 72 68 65 0 1 0 0 0 2 0 73 0 0 3 [] rfl
  exact ⟨h2.trans (by decide), h7 rfl⟩

/-- C8: for every decodable status, the mode-code to mode-name mapping is
exactly the fixed table 0 to off, 1 to fan, 2 to cool, 3 to cool_on, 4 to
heat, 5 to heat_on, 11 to auto, applied to both `mode_num` (index 10) and
`current_mode_num` (index 15); a code outside the table leaves the string
field absent (the lookup is `none`), with no exception and no default. -/
theorem decode_mode_table (s : StatusJson)
    (a0 a1 a2 a3 a4 a5 a6 a7 a8 a9 a10 a11 a12 a13 a14 a15 : Int)
    (rest : List Int)
    (h : s.zsts0 = a0 :: a1 :: a2 :: a3 :: a4 :: a5 :: a6 :: a7 :: a8 :: a9
        :: a10 :: a11 :: a12 :: a13 :: a14 :: a15 :: rest) :
    (decrypt s).isSome = true
    ∧ dictGet ((decrypt s).getD []) "mode" = (dictGet modes a10).map JVal.str
    ∧ dictGet ((decrypt s).getD []) "current_mode" = (dictGet modes a15).map JVal.str
    ∧ (∀ n : Int, dictGet modes n =
        if n = 0 then some "off"
        else if n = 1 then some "fan"
        else if n = 2 then some "cool"
        else if n = 3 then some "cool_on"
        else if n = 4 then some "heat"
        else if n = 5 then some "heat_on"
        else if n = 11 then some "auto"
        else none) := by
  rw [decrypt_eq s a0 a1 a2 a3 a4 a5 a6 a7 a8 a9 a10 a11 a12 a13 a14 a15 rest h]
  refine ⟨rfl, by simp, by simp, ?_⟩
  intro n
  by_cases h0 : n = 0
  · subst h0; decide
  by_cases h1 : n = 1
  · subst h1; decide
  by_cases h2 : n = 2
  · subst h2; decide
  by_cases h3 : n = 3
  · subst h3; decide
  by_cases h4 : n = 4
  · subst h4; decide
  by_cases h5 : n = 5
  · subst h5; decide
  by_cases h11 : n = 11
  · subst h11; decide
  have g0 : ¬ (0 : Int) = n := fun hh => h0 hh.symm
  have g1 : ¬ (1 : Int) = n := fun hh => h1 hh.symm
  have g2 : ¬ (2 : Int) = n := fun hh => h2 hh.symm
  have g3 : ¬ (3 : Int) = n := fun hh => h3 hh.symm
  have g4 : ¬ (4 : Int) = n := fun hh => h4 hh.symm
  have g5 : ¬ (5 : Int) = n := fun hh => h5 hh.symm
  have g11 : ¬ (11 : Int) = n := fun hh => h11 hh.symm
  simp [modes, h0, h1, h2, h3, h4, h5, h11, g0, g1, g2, g3, g4, g5, g11]

/-- Concrete decode with `mode_num = 99`: the `mode` field is absent while
`current_mode_num = 3` still maps to `"cool_on"`. -/
theorem decode_mode_table_witness :
    dictGet ((decrypt ⟨"S1", [60, 75, 72, 68, 65, 0, 1, 0, 0, 0, 99, 0, 73, 0, 0, 3], []⟩).getD [])
        "mode" = none
    ∧ dictGet ((decrypt ⟨"S1", [60, 75, 72, 68, 65, 0, 1, 0, 0, 0, 99, 0, 73, 0, 0, 3], []⟩).getD [])
        "current_mode" = some (.str "cool_on") := by
  obtain ⟨-, h1, h2, -⟩ :=
    decode_mode_table ⟨"S1", [60, 75, 72, 68, 65, 0, 1, 0, 0, 0, 99, 0, 73, 0, 0, 3], []⟩
      60 75 72 68 65 0 1 0 0 0 99 0 73 0 0 3 [] rfl
  exact ⟨h1.trans (by decide), h2.trans (by decide)⟩

/-- C9: for every decodable status, the `off` and `on` flags are set
independently from the `PRM` collection: `off` is present (with value
`True`) exactly when `7` is in `PRM`, and `on` exactly when `15` is. -/
theorem decode_prm_flags (s : StatusJson)
    (a0 a1 a2 a3 a4 a5 a6 a7 a8 a9 a10 a11 a12 a13 a14 a15 : Int)
    (rest : List Int)
    (h : s.zsts0 = a0 :: a1 :: a2 :: a3 :: a4 :: a5 :: a6 :: a7 :: a8 :: a9
        :: a10 :: a11 :: a12 :: a13 :: a14 :: a15 :: rest) :
    dictGet ((decrypt s).getD []) "off"
        = (if (7 : Int) ∈ s.prm then some (JVal.bool true) else none)
    ∧ dictGet ((decrypt s).getD []) "on"
        = (if (15 : Int) ∈ s.prm then some (JVal.bool true) else none) := by
  rw [decrypt_eq s a0 a1 a2 a3 a4 a5 a6 a7 a8 a9 a10 a11 a12 a13 a14 a15 rest h]
  constructor <;> simp

/-- Concrete flag combinations: `PRM = [7]` gives `off` only,
`PRM = [15]` gives `on` only, `PRM = [7, 15]` gives both, `PRM = []`
gives neither. -/
theorem decode_prm_flags_witness :
    dictGet ((decrypt ⟨"P1", [0, 0, 0, 0, 0, 0, 0, 0, 0, 0, 0, 0, 0, 0, 0, 0], [7]⟩).getD [])
        "off" = some (JVal.bool true)
    ∧ dictGet ((decrypt ⟨"P1", [0, 0, 0, 0, 0, 0, 0, 0, 0, 0, 0, 0, 0, 0, 0, 0], [7]⟩).getD [])
        "on" = none
    ∧ dictGet ((decrypt ⟨"P2", [0, 0, 0, 0, 0, 0, 0, 0, 0, 0, 0, 0, 0, 0, 0, 0], [15]⟩).getD [])
        "off" = none
    ∧ dictGet ((decrypt ⟨"P2", [0, 0, 0, 0, 0, 0, 0, 0, 0, 0, 0, 0, 0, 0, 0, 0], [15]⟩).getD [])
        "on" = some (JVal.bool true)
    ∧ dictGet ((decrypt ⟨"P3", [0, 0, 0, 0, 0, 0, 0, 0, 0, 0, 0, 0, 0, 0, 0, 0], [7, 15]⟩).getD [])
        "off" = some (JVal.bool true)
    ∧ dictGet ((decrypt ⟨"P3", [0, 0, 0, 0, 0, 0, 0, 0, 0, 0, 0, 0, 0, 0, 0, 0], [7, 15]⟩).getD [])
        "on" = some (JVal.bool true)
    ∧ dictGet ((decrypt ⟨"P4", [0, 0, 0, 0, 0, 0, 0, 0, 0, 0, 0, 0, 0, 0, 0, 0], []⟩).getD [])
        "off" = none
    ∧ dictGet ((decrypt ⟨"P4", [0, 0, 0, 0, 0, 0, 0, 0, 0, 0, 0, 0, 0, 0, 0, 0], []⟩).getD [])
        "on" = none := by
  obtain ⟨ha, hb⟩ :=
    decode_prm_flags ⟨"P1", [0, 0, 0, 0, 0, 0, 0, 0, 0, 0, 0, 0, 0, 0, 0, 0], [7]⟩
      0 0 0 0 0 0 0 0 0 0 0 0 0 0 0 0 [] rfl
  obtain ⟨hc, hd⟩ :=
    decode_prm_flags ⟨"P2", [0, 0, 0, 0, 0, 0, 0, 0, 0, 0, 0, 0, 0, 0, 0, 0], [15]⟩
      0 0 0 0 0 0 0 0 0 0 0 0 0 0 0 0 [] rfl
  obtain ⟨he, hf⟩ :=
    decode_prm_flags ⟨"P3", [0, 0, 0, 0, 0, 0, 0, 0, 0, 0, 0, 0, 0, 0, 0, 0], [7, 15]⟩
      0 0 0 0 0 0 0 0 0 0 0 0 0 0 0 0 [] rfl
  obtain ⟨hg, hh⟩ :=
    decode_prm_flags ⟨"P4", [0, 0, 0, 0, 0, 0, 0, 0, 0, 0, 0, 0, 0, 0, 0, 0], []⟩
      0 0 0 0 0 0 0 0 0 0 0 0 0 0 0 0 [] rfl
  refine ⟨ha.trans (by decide), hb.trans (by decide), hc.trans (by decide),
    hd.trans (by decide), he.trans (by decide), hf.trans (by decide),
    hg.trans (by decide), hh.trans (by decide)⟩

/-! ## Session engine

`async_poll`, `authenticate` (with its `retry_authentication` decorator),
`_reconnect_and_authenticate`, `_write_gatt_with_retry` and
`_read_gatt_with_retry` from `parser.py`.  The BLE transport (bleak) is
abstracted as an oracle supplying the outcome of each primitive call; the
session state tracks `self._client` (connectivity and whether the service
catalog is populated), the `self._event` notification flag, and the delay
tracker.  Python's `try`/`except`/`finally` is translated explicitly: an
exception caught by a handler becomes that handler's result, and the
`finally` block of `async_poll` is applied to every outcome of its `try`
body (the two password checks sit before the `try`, hence outside it). -/

/-- The connected `BleakClient` object held in `self._client`: whether
`is_connected` holds and whether `client.services` is non-empty. -/
structure ClientInfo where
  connected : Bool
  services : Bool
deriving DecidableEq, Repr

/-- `self._client`: `none` models both `None` and the falsy `False` that
`_connect_to_device` returns when no services appear (every use of the
field is a truthiness or `is_connected` check, which cannot tell the two
apart). -/
abbrev Client := Option ClientInfo

/-- The check `self._client and self._client.is_connected` (negated form
`not self._client or not self._client.is_connected` appears throughout). -/
def clientConnected : Client → Bool
  | some c => c.connected
  | none => false

/-- Classes of exception relevant to `async_poll`'s handlers: bleak
errors (`BleakError` / `BleakDBusError`, both caught and turned into a
failed update) versus anything else (re-raised). -/
inductive ExcKind
  | bleak
  | generic
deriving DecidableEq, Repr

/-- Outcome of one `_connect_to_device` call: success (a connected client
with cached services), the no-services path (the decorated function
returns `False` after `establish_connection` succeeded), the dropped path
(`establish_connection` returned a client with cached services but the
link dropped before the caller's `is_connected` check — the function
performs no such check itself and hands the client back), or an exception
of the given class. -/
inductive ConnectOutcome
  | ok
  | noServices
  | dropped
  | raises (k : ExcKind)
deriving DecidableEq, Repr

/-- Outcome of the password `write_gatt_char` inside `authenticate`:
success, a `BleakError` whose message contains "connection status"
(handled in-band by returning `False`), any other `BleakError`
(re-raised), or a non-bleak exception. -/
inductive AuthWriteOutcome
  | ok
  | connStatusErr
  | bleakErr
  | otherExc
deriving DecidableEq, Repr

/-- Oracle for one authentication attempt: the outcome of the inline
`_connect_to_device` reconnect (if invoked; an `AttributeError` from the
unset `self._ble_device` is subsumed by the `raises` outcome), whether
`discover_services` raises, whether it leaves a non-empty catalog, the
outcome of the password write, and whether the `disconnect()` call inside
the outer `except` handler itself raises. -/
structure AuthAttemptEnv where
  reconnect : ConnectOutcome
  discoverRaises : Bool
  discoverOk : Bool
  write : AuthWriteOutcome
  disconnectRaises : Bool
deriving DecidableEq, Repr

/-- The outer `except Exception` handler of `authenticate`: when
`self._client and self._client.is_connected`, it awaits
`self._client.disconnect()` — if that call itself raises, the new
exception propagates to the `retry_authentication` decorator *before*
`self._client = None` runs, so the handle survives into the next attempt
(the decorator catches the exception and continues, which is the same
failed-attempt result as the handler's own `return False`); otherwise the
handle is nulled and the attempt returns `False`. -/
def auth_except_teardown (env : AuthAttemptEnv) (cl : Client) : Bool × Client :=
  if clientConnected cl then
    if env.disconnectRaises then (false, cl)
    else (false, none)
  else (false, none)

/-- The password-write step of an `authenticate` attempt.  A `BleakError`
carrying "connection status" returns `False` in-band (no teardown); any
other exception reaches the attempt's outer `except` handler. -/
def auth_attempt_write (env : AuthAttemptEnv) (cl : Client) : Bool × Client :=
  match env.write with
  | .ok => (true, cl)
  | .connStatusErr => (false, cl)
  | .bleakErr => auth_except_teardown env cl
  | .otherExc => auth_except_teardown env cl

/-- The service-discovery step of an `authenticate` attempt, entered once
the connection check has passed (`none` here would be an attribute access
on `None`, an exception handled by the outer `except`; a raising
`discover_services` likewise reaches the outer handler). -/
def auth_after_checks (env : AuthAttemptEnv) (cl : Client) : Bool × Client :=
  match cl with
  | none => auth_except_teardown env none
  | some c =>
    if !c.services then
      if env.discoverRaises then auth_except_teardown env (some c)
      else
        let c := { c with services := env.discoverOk }
        if !c.services then (false, some c)
        else auth_attempt_write env (some c)
    else auth_attempt_write env (some c)

/-- One attempt of the (decorated) `authenticate` body: the
connection check with its inline reconnect, then service discovery, then
the password write.  Returns the attempt's boolean result and the
resulting `self._client` (an exception escaping the attempt — only
possible from the handler's own `disconnect()` — is collapsed into a
`false` result, since the decorator catches it and continues
identically). -/
def authenticate_once (env : AuthAttemptEnv) (cl : Client) : Bool × Client :=
  if clientConnected cl then auth_after_checks env cl
  else
    match env.reconnect with
    | .raises _ => auth_except_teardown env cl
    | .ok =>
      let cl1 : Client := some { connected := true, services := true }
      if clientConnected cl1 then auth_after_checks env cl1 else (false, cl1)
    | .noServices =>
      let cl1 : Client := some { connected := true, services := false }
      if clientConnected cl1 then auth_after_checks env cl1 else (false, cl1)
    | .dropped =>
      let cl1 : Client := some { connected := false, services := true }
      if clientConnected cl1 then auth_after_checks env cl1 else (false, cl1)

/-- The `retry_authentication(retries=3, delay=2)` decorator loop: run
attempts in order, stop at the first `True`, return `False` when all
attempts are exhausted.  Both an attempt returning `False` and an attempt
raising (the handler's `disconnect()` case) make the decorator sleep and
continue with the client state the attempt left behind, so the two are
modelled by the same `false` result. -/
def retry_authentication : Nat → (Nat → AuthAttemptEnv) → Nat → Client → Bool × Client
  | 0, _, _, cl => (false, cl)
  | n + 1, envs, i, cl =>
    let r := authenticate_once (envs i) cl
    if r.1 then (true, r.2)
    else retry_authentication n envs (i + 1) r.2

/-- The decorated `authenticate`: three attempts. -/
def authenticate (envs : Nat → AuthAttemptEnv) (cl : Client) : Bool × Client :=
  retry_authentication 3 envs 0 cl

/-- Mutable session state threaded through a poll: `self._client`,
whether `self._event` is set, and the delay tracker. -/
structure PollState where
  client : Client
  eventSet : Bool
  delays : DelayState

/-- Oracle for one `_reconnect_and_authenticate` call. -/
structure ReconnEnv where
  connect : ConnectOutcome
  auth : Nat → AuthAttemptEnv

/-- `_reconnect_and_authenticate`: applies the connect delay, calls
`_connect_to_device` (assigning `self._client`), updates the `connect`
delay bucket, then authenticates and updates the `auth` bucket; its
`except` catches every exception, increases the `connect` delay and
returns `False` (with `self._client` unchanged by the failed call). -/
def reconnect_and_authenticate (re : ReconnEnv) (addr : String) (st : PollState) :
    Bool × PollState :=
  match re.connect with
  | .raises _ =>
    (false, { st with delays := (increase_operation_delay st.delays addr "connect").2 })
  | .noServices =>
    let st := { st with client := none }
    (false, { st with delays := (increase_operation_delay st.delays addr "connect").2 })
  | .dropped =>
    let st := { st with client := some { connected := false, services := true } }
    (false, { st with delays := (increase_operation_delay st.delays addr "connect").2 })
  | .ok =>
    let st := { st with client := some { connected := true, services := true } }
    let st := { st with delays := adjust_operation_delay st.delays addr "connect" }
    let a := authenticate re.auth st.client
    let st := { st with client := a.2 }
    let st :=
      { st with delays :=
          if a.1 then adjust_operation_delay st.delays addr "auth"
          else (increase_operation_delay st.delays addr "auth").2 }
    (a.1, st)

/-- Outcome of one raw GATT write/read call. -/
inductive GattOpOutcome
  | ok
  | bleakErr
  | otherExc
deriving DecidableEq, Repr

/-- Result of a step that can either return a value or propagate an
exception to the caller. -/
inductive StepResult (α : Type)
  | ret (a : α)
  | exc
deriving DecidableEq, Repr

/-- `_write_gatt_with_retry` (retries=3): per attempt, reconnect and
re-authenticate when disconnected (aborting on failure), apply the write
delay, write; on success adjust the `write` bucket and return `True`; on
`BleakError` increase the `write` bucket and retry unless this was the
last attempt; any non-bleak exception propagates.  The first `Nat`
argument is the remaining attempts, the second the attempt index into the
oracle. -/
def write_gatt_with_retry (wenvs : Nat → GattOpOutcome) (renvs : Nat → ReconnEnv)
    (addr : String) : Nat → Nat → PollState → StepResult Bool × PollState
  | 0, _, st => (.ret false, st)
  | fuel + 1, i, st =>
    let pre : Bool × PollState :=
      if clientConnected st.client then (true, st)
      else reconnect_and_authenticate (renvs i) addr st
    if pre.1 then
      match wenvs i with
      | .ok =>
        (.ret true, { pre.2 with delays := adjust_operation_delay pre.2.delays addr "write" })
      | .otherExc => (.exc, pre.2)
      | .bleakErr =>
        if 0 < fuel then
          write_gatt_with_retry wenvs renvs addr fuel (i + 1)
            { pre.2 with delays := (increase_operation_delay pre.2.delays addr "write").2 }
        else (.ret false, pre.2)
    else (.ret false, pre.2)

/-- What a successful `read_gatt_char` of the status characteristic hands
back: empty bytes (falsy), bytes that are not valid JSON, or a payload
that parses into a `StatusJson`. -/
inductive Payload
  | empty
  | malformed
  | valid (s : StatusJson)
deriving DecidableEq, Repr

/-- Outcome of one raw `read_gatt_char` call. -/
inductive GattReadOutcome
  | ok (p : Payload)
  | bleakErr
  | otherExc
deriving DecidableEq, Repr

/-- `_read_gatt_with_retry` (retries=3), symmetric to the write helper,
returning the payload or `none` after reconnect failure or exhaustion. -/
def read_gatt_with_retry (renvsOut : Nat → GattReadOutcome) (renvs : Nat → ReconnEnv)
    (addr : String) : Nat → Nat → PollState → StepResult (Option Payload) × PollState
  | 0, _, st => (.ret none, st)
  | fuel + 1, i, st =>
    let pre : Bool × PollState :=
      if clientConnected st.client then (true, st)
      else reconnect_and_authenticate (renvs i) addr st
    if pre.1 then
      match renvsOut i with
      | .ok p =>
        (.ret (some p), { pre.2 with delays := adjust_operation_delay pre.2.delays addr "read" })
      | .otherExc => (.exc, pre.2)
      | .bleakErr =>
        if 0 < fuel then
          read_gatt_with_retry renvsOut renvs addr fuel (i + 1)
            { pre.2 with delays := (increase_operation_delay pre.2.delays addr "read").2 }
        else (.ret none, pre.2)
    else (.ret none, pre.2)

/-- `json.loads` + `decrypt` applied to the raw payload bytes: malformed
text raises (`none`), valid text decodes through `decrypt`. -/
def decrypt_bytes : Payload → Option (List (String × JVal))
  | .empty => none
  | .malformed => none
  | .valid s => decrypt s

/-- The return point of `async_poll` (every non-exception exit goes
through `self._finish_update()`; the tags record which exit it was). -/
inductive PollStage
  | setupMode
  | noPassword
  | connectFailed
  | authFailed
  | writeFailed
  | noPayload
  | success
  | bleakCaught
deriving DecidableEq, Repr

/-- How `async_poll` hands control back: a `SensorUpdate` from
`_finish_update()`, or an exception propagated to the caller. -/
inductive PollExit
  | update (s : PollStage)
  | raised
deriving DecidableEq, Repr

/-- Oracle for one `async_poll` call. -/
structure PollEnv where
  connect : ConnectOutcome
  auth : Nat → AuthAttemptEnv
  writeOut : Nat → GattOpOutcome
  writeReconn : Nat → ReconnEnv
  readOut : Nat → GattReadOutcome
  readReconn : Nat → ReconnEnv

/-- The `try` body of `async_poll`: connect, check, authenticate, write
the Get Status command with retry, read the response with retry, check
for an empty payload, decode.  Bleak exceptions raised by the connect call
are caught by the `except BleakError`/`BleakDBusError` handlers (a failed
update); everything else that escapes (including a decode error) is
re-raised by `except Exception: raise`. -/
def poll_body (env : PollEnv) (addr : String) (st : PollState) : PollExit × PollState :=
  match env.connect with
  | .raises .bleak => (.update .bleakCaught, st)
  | .raises .generic => (.raised, st)
  | .noServices =>
    let st := { st with client := none }
    (.update .connectFailed, st)
  | .dropped =>
    let st := { st with client := some { connected := false, services := true } }
    (.update .connectFailed, st)
  | .ok =>
    let st := { st with client := some { connected := true, services := true } }
    let a := authenticate env.auth st.client
    let st := { st with client := a.2 }
    if !a.1 then (.update .authFailed, st)
    else
      match write_gatt_with_retry env.writeOut env.writeReconn addr 3 0 st with
      | (.exc, st) => (.raised, st)
      | (.ret false, st) => (.update .writeFailed, st)
      | (.ret true, st) =>
        match read_gatt_with_retry env.readOut env.readReconn addr 3 0 st with
        | (.exc, st) => (.raised, st)
        | (.ret none, st) => (.update .noPayload, st)
        | (.ret (some p), st) =>
          if p = .empty then (.update .noPayload, st)
          else
            match decrypt_bytes p with
            | none => (.raised, st)
            | some _ => (.update .success, st)

/-- `async_poll`: the two password guards sit before the `try` block (and
return without any cleanup); every path through the `try` body — return
or exception — runs the `finally` block, which disconnects the client if
connected (swallowing errors from the disconnect itself), sets
`self._client = None` and clears `self._event`. -/
def async_poll (env : PollEnv) (addr : String) (password : Option String)
    (st : PollState) : PollExit × PollState :=
  match password with
  | none => (.update .setupMode, st)
  | some p =>
    if p = "" then (.update .noPassword, st)
    else
      let r := poll_body env addr st
      (r.1, { r.2 with client := none, eventSet := false })

/-- C5: whenever a password is configured (the two guard returns before
the `try` block are excluded, matching the claim's success / stage-failure
/ exception enumeration), every exit of `async_poll` — any returned
update or a propagated exception — leaves the connection handle nulled
and the notification event cleared by the `finally` cleanup; and in the
scenario where connect succeeds and all three authentication attempts
fail, the poll returns the failed update of the authentication stage. -/
theorem async_poll_cleanup (env : PollEnv) (addr : String) (password : Option String)
    (st : PollState) (h1 : password ≠ none) (h2 : password ≠ some "") :
    ((async_poll env addr password st).2.client = none
      ∧ (async_poll env addr password st).2.eventSet = false)
    ∧ (env.connect = .ok →
        (authenticate env.auth (some { connected := true, services := true })).1 = false →
        (async_poll env addr password st).1 = .update .authFailed) := by
  cases password with
  | none => exact absurd rfl h1
  | some p =>
    have hp : ¬ p = "" := fun hh => h2 (by rw [hh])
    refine ⟨by simp [async_poll, hp], ?_⟩
    intro hc hauth
    simp [async_poll, hp, poll_body, hc, hauth]

/-- Concrete cleanup scenario: connect succeeds, every one of the three
authentication attempts fails with the in-band "connection status" write
rejection, so `async_poll` returns the authentication-stage failed update
and afterwards the client handle is `none` and the event flag is clear
(the initial state deliberately starts with the event set). -/
theorem async_poll_cleanup_witness :
    ((async_poll
        ⟨.ok, fun _ => ⟨.ok, false, true, .connStatusErr, false⟩, fun _ => .ok,
         fun _ => ⟨.ok, fun _ => ⟨.ok, false, true, .ok, false⟩⟩, fun _ => .ok .empty,
         fun _ => ⟨.ok, fun _ => ⟨.ok, false, true, .ok, false⟩⟩⟩
        "00:11:22" (some "pw") ⟨none, true, empty_delays⟩).2.client = none
      ∧ (async_poll
        ⟨.ok, fun _ => ⟨.ok, false, true, .connStatusErr, false⟩, fun _ => .ok,
         fun _ => ⟨.ok, fun _ => ⟨.ok, false, true, .ok, false⟩⟩, fun _ => .ok .empty,
         fun _ => ⟨.ok, fun _ => ⟨.ok, false, true, .ok, false⟩⟩⟩
        "00:11:22" (some "pw") ⟨none, true, empty_delays⟩).2.eventSet = false)
    ∧ (async_poll
        ⟨.ok, fun _ => ⟨.ok, false, true, .connStatusErr, false⟩, fun _ => .ok,
         fun _ => ⟨.ok, fun _ => ⟨.ok, false, true, .ok, false⟩⟩, fun _ => .ok .empty,
         fun _ => ⟨.ok, fun _ => ⟨.ok, false, true, .ok, false⟩⟩⟩
        "00:11:22" (some "pw") ⟨none, true, empty_delays⟩).1 = .update .authFailed := by
  have h := async_poll_cleanup
    ⟨.ok, fun _ => ⟨.ok, false, true, .connStatusErr, false⟩, fun _ => .ok,
     fun _ => ⟨.ok, fun _ => ⟨.ok, false, true, .ok, false⟩⟩, fun _ => .ok .empty,
     fun _ => ⟨.ok, fun _ => ⟨.ok, false, true, .ok, false⟩⟩⟩
    "00:11:22" (some "pw") ⟨none, true, empty_delays⟩
    (by decide) (by decide)
  exact ⟨h.1, h.2 rfl (by decide)⟩

/-- C6 counterexample: an authentication attempt on a connected client
whose service catalog stays empty after re-discovery fails (returns
`False`) but leaves the connection up and the handle non-null — the next
attempt retries over the very connection the failed attempt used,
refuting the claim that every mid-attempt failure tears the connection
down before the next attempt. -/
theorem auth_teardown_counterexample :
    (authenticate_once ⟨.ok, false, false, .ok, false⟩
        (some { connected := true, services := false })).1 = false
    ∧ (authenticate_once ⟨.ok, false, false, .ok, false⟩
        (some { connected := true, services := false })).2
      = some { connected := true, services := false } := by
  exact ⟨rfl, rfl⟩

/-- C6 (amended): an authentication attempt that fails with an exception
(a password write raising a `BleakError` without the "connection status"
marker or any non-bleak exception, or a raising `discover_services`)
tears the connection down, and the handle is nulled exactly when the
handler's own `disconnect()` call does not raise — if it raises, the
exception propagates to the retry decorator before `self._client = None`
runs and the handle survives into the next attempt; the in-band `False`
returns — the client still not connected after the inline reconnect
attempt (a dropped link), services still missing after re-discovery, or
the "connection status" write rejection — never tear down, so in all
these cases the retry proceeds over whatever connection state the failed
attempt left behind. -/
theorem auth_attempt_teardown (env : AuthAttemptEnv) (c : ClientInfo)
    (hc : c.connected = true) :
    ((env.write = .bleakErr ∨ env.write = .otherExc) → c.services = true →
        env.disconnectRaises = false → authenticate_once env (some c) = (false, none))
    ∧ ((env.write = .bleakErr ∨ env.write = .otherExc) → c.services = true →
        env.disconnectRaises = true → authenticate_once env (some c) = (false, some c))
    ∧ (c.services = false → env.discoverRaises = true →
        env.disconnectRaises = false → authenticate_once env (some c) = (false, none))
    ∧ (c.services = false → env.discoverRaises = true →
        env.disconnectRaises = true → authenticate_once env (some c) = (false, some c))
    ∧ (c.services = false → env.discoverRaises = false → env.discoverOk = false →
        authenticate_once env (some c) = (false, some c))
    ∧ (c.services = true → env.write = .connStatusErr →
        authenticate_once env (some c) = (false, some c))
    ∧ (∀ cl : Client, clientConnected cl = false → env.reconnect = .dropped →
        authenticate_once env cl
          = (false, some { connected := false, services := true })) := by
  refine ⟨?_, ?_, ?_, ?_, ?_, ?_, ?_⟩
  · rintro (hw | hw) hs hd <;>
      simp [authenticate_once, clientConnected, hc, auth_after_checks, hs,
        auth_attempt_write, hw, auth_except_teardown, hd]
  · rintro (hw | hw) hs hd <;>
      simp [authenticate_once, clientConnected, hc, auth_after_checks, hs,
        auth_attempt_write, hw, auth_except_teardown, hd]
  · intro hs hdr hd
    simp [authenticate_once, clientConnected, hc, auth_after_checks, hs, hdr,
      auth_except_teardown, hd]
  · intro hs hdr hd
    simp [authenticate_once, clientConnected, hc, auth_after_checks, hs, hdr,
      auth_except_teardown, hd]
  · intro hs hdr hdo
    have hcc : ({ connected := true, services := false } : ClientInfo) = c := by
      cases c
      simp_all
    simp [authenticate_once, clientConnected, hc, auth_after_checks, hs, hdr, hdo, hcc]
  · intro hs hw
    simp [authenticate_once, clientConnected, hc, auth_after_checks, hs,
      auth_attempt_write, hw]
  · intro cl hcl hre
    unfold authenticate_once
    rw [hre, hcl]
    simp [clientConnected]

/-- Concrete instances of the amended teardown behaviour: a plain
`BleakError` on the password write nulls the handle when the handler's
disconnect succeeds but leaves it in place when that disconnect raises; a
missing-services failure keeps the connected handle; a reconnect that
hands back a dropped link fails in-band with the handle non-null. -/
theorem auth_attempt_teardown_witness :
    authenticate_once ⟨.ok, false, false, .bleakErr, false⟩
        (some { connected := true, services := true }) = (false, none)
    ∧ authenticate_once ⟨.ok, false, false, .bleakErr, true⟩
        (some { connected := true, services := true })
      = (false, some { connected := true, services := true })
    ∧ authenticate_once ⟨.ok, false, false, .ok, false⟩
        (some { connected := true, services := false })
      = (false, some { connected := true, services := false })
    ∧ authenticate_once ⟨.dropped, false, false, .ok, false⟩ none
      = (false, some { connected := false, services := true }) := by
  have h1 := auth_attempt_teardown ⟨.ok, false, false, .bleakErr, false⟩
    { connected := true, services := true } rfl
  have h2 := auth_attempt_teardown ⟨.ok, false, false, .bleakErr, true⟩
    { connected := true, services := true } rfl
  have h3 := auth_attempt_teardown ⟨.ok, false, false, .ok, false⟩
    { connected := true, services := false } rfl
  have h4 := auth_attempt_teardown ⟨.dropped, false, false, .ok, false⟩
    { connected := true, services := true } rfl
  exact ⟨h1.1 (Or.inl rfl) rfl rfl, h2.2.1 (Or.inl rfl) rfl rfl,
    h3.2.2.2.2.1 rfl rfl rfl, h4.2.2.2.2.2.2 none rfl rfl⟩

/-! ## Reboot command (spec-modelled)

`button.py` presses the reboot button by calling
`self._data.reboot_device(hass, ble_device)`, and `climate.py` /
`services.py` call `self._data.send_command(hass, ble_device, message)`,
but the bodies of `reboot_device` and `send_command` are not present in
the sources (only their call sites are), so they are modelled from the
spec here. -/

/-- The classification the spec attaches to a transport error raised by a
command write: the known disconnect-during-reset message signature, or
any other transport error. -/
inductive TransportErrorKind
  | disconnectDuringReset
  | other
deriving DecidableEq, Repr

/-- Outcome of the single command write performed after the
connect/authenticate preamble. -/
inductive CommandWriteOutcome
  | ok
  | transportError (k : TransportErrorKind)
deriving DecidableEq, Repr

/-- Modelled from the spec: `reboot_device` is missing from the sources
(only `button.py`'s call remains).  Per §4.3 it writes a fixed reset
command and treats exactly the transport error matching the known
disconnect-during-reset signature as success, since the device
legitimately drops the link while rebooting; every other transport error
is a failure. -/
def reboot_device (w : CommandWriteOutcome) : Bool :=
  match w with
  | .ok => true
  | .transportError .disconnectDuringReset => true
  | .transportError .other => false

/-- Modelled from the spec: `send_command` is missing from the sources
(only its call sites remain).  Per §4.3 and §7 it performs a single
command write and reports failure on every transport error — the
disconnect-during-reset reclassification is scoped to the reboot
operation only. -/
def send_command (w : CommandWriteOutcome) : Bool :=
  match w with
  | .ok => true
  | .transportError _ => false

/-- C7: the reboot operation reclassifies exactly one transport error as
success — the disconnect-during-reset signature makes `reboot_device`
return true, every other transport error makes it return false, and
ordinary commands (`send_command`) fail on every transport error,
including that signature. -/
theorem reboot_special_case :
    reboot_device (.transportError .disconnectDuringReset) = true
    ∧ (∀ k, k ≠ TransportErrorKind.disconnectDuringReset →
        reboot_device (.transportError k) = false)
    ∧ (∀ k, send_command (.transportError k) = false) := by
  refine ⟨rfl, ?_, ?_⟩
  · intro k hk
    cases k with
    | disconnectDuringReset => exact absurd rfl hk
    | other => rfl
  · intro k
    cases k <;> rfl

/-- Concrete instances: the other transport errors fail a reboot, and
even the disconnect-during-reset signature fails an ordinary command. -/
theorem reboot_special_case_witness :
    reboot_device (.transportError .other) = false
    ∧ send_command (.transportError .disconnectDuringReset) = false :=
  ⟨reboot_special_case.2.1 .other (by decide),
    reboot_special_case.2.2 .disconnectDuringReset⟩
